import Mathlib

/-!
Shallow embedding of `radicale/storage/multifilesystem/lock.py`.

The file defines two mixins:
  * `CollectionLockMixin._acquire_cache_lock(ns="")` — nested cache lock
    acquisition, skipped when the storage-level lock is held in write mode;
  * `StorageLockMixin.acquire_lock(mode, user=None)` — a context manager that
    acquires the storage-level read/write lock, yields to the protected body,
    and on normal exit from a write-mode transaction runs the configured
    `storage.hook` shell command as a subprocess with careful cleanup.

Side effects (lock acquisition/release, `subprocess.Popen`, `communicate`,
`terminate`/`wait`, `os.killpg`, logging) are embedded as an explicit event
trace; exceptional control flow (`raise` from the body, `BaseException` during
`communicate`, `CalledProcessError` on a non-zero exit code) is embedded as an
explicit `Outcome` value.  Each definition mirrors the source line by line.
-/

namespace Radicale

/-! ### Python string helpers used by the source -/

/-- The single-quote character, written via its code point. -/
def sq : Char := Char.ofNat 39

/-- The double-quote character, written via its code point. -/
def dq : Char := Char.ofNat 34

/-- Characters the `shlex.quote` ASCII regex treats as safe: ASCII
alphanumerics, underscore, and the punctuation at-sign, percent, plus,
equals, colon, comma, dot, slash, hyphen. -/
def shlexSafeChar (c : Char) : Bool :=
  (Char.ofNat 97 ≤ c && c ≤ Char.ofNat 122) ||
  (Char.ofNat 65 ≤ c && c ≤ Char.ofNat 90) ||
  (Char.ofNat 48 ≤ c && c ≤ Char.ofNat 57) ||
  c = Char.ofNat 95 || c = Char.ofNat 64 || c = Char.ofNat 37 ||
  c = Char.ofNat 43 || c = Char.ofNat 61 || c = Char.ofNat 58 ||
  c = Char.ofNat 44 || c = Char.ofNat 46 || c = Char.ofNat 47 ||
  c = Char.ofNat 45

/-- `s.replace(squote, squote dquote squote dquote squote)` applied per
character, as in the body of `shlex.quote`. -/
def shlexQuoteChar (c : Char) : List Char :=
  if c = sq then [sq, dq, sq, dq, sq] else [c]

/-- Embedding of Python `shlex.quote`: empty string becomes two quotes, a
string of safe characters is returned unchanged, anything else is wrapped in
single quotes with embedded single quotes escaped. -/
def shlexQuote (s : String) : String :=
  if s = "" then String.mk [sq, sq]
  else if s.data.all shlexSafeChar then s
  else String.mk ([sq] ++ (s.data.flatMap shlexQuoteChar) ++ [sq])

/-- `user or "Anonymous"`: Python `or` takes the right operand when the left
is falsy, i.e. `None` or the empty string. -/
def pyOr (user : Option String) (default : String) : String :=
  match user with
  | none => default
  | some s => if s = "" then default else s

/-- Embedding of Python `template % {"user": v}` for templates whose
conversion specifications are all `%(user)s` (plus the `%%` escape); other
uses of `%` would raise in Python and do not occur in the hook templates the
source is configured with. -/
def pyFormatUserAux (v : List Char) : List Char → List Char
  | [] => []
  | '%' :: '(' :: 'u' :: 's' :: 'e' :: 'r' :: ')' :: 's' :: rest =>
    v ++ pyFormatUserAux v rest
  | '%' :: '%' :: rest => '%' :: pyFormatUserAux v rest
  | c :: rest => c :: pyFormatUserAux v rest

/-- `hook % {"user": shlex.quote(user or "Anonymous")}` on strings. -/
def pyFormatUser (template : String) (v : String) : String :=
  String.mk (pyFormatUserAux v.data template.data)

/-- `os.path.join(a, b)` for a non-empty `a` without a trailing separator and
a relative `b`, the only shape the source builds. -/
def joinPath (a b : String) : String := a ++ "/" ++ b

/-! ### `CollectionLockMixin._acquire_cache_lock` -/

/-- Filesystem/lock side effects performed by `_acquire_cache_lock`. -/
inductive CacheEvent
  | makedirsSynced (path : String)
  | rwLockAcquire (path : String) (mode : String)
  deriving DecidableEq, Repr

/-- The scoped resource `_acquire_cache_lock` returns: either the empty
`contextlib.ExitStack()` (a no-op) or an acquired write lock on a path. -/
inductive CacheLockResult
  | noopStack
  | acquired (lockPath : String) (mode : String)
  deriving DecidableEq, Repr

/-- The lock file's base name inside the cache folder:
`".Radicale.lock" + (".%s" % ns if ns else "")`. -/
def cacheLockName (ns : String) : String :=
  ".Radicale.lock" ++ (if ns ≠ "" then "." ++ ns else "")

/-- Embedding of `CollectionLockMixin._acquire_cache_lock(ns)`.
`locked` is the current mode string of the enclosing storage-level lock
(`self._storage._lock.locked`); `filesystem_path` is the collection's
`self._filesystem_path`. -/
def acquire_cache_lock (locked : String) (filesystem_path : String)
    (ns : String) : List CacheEvent × CacheLockResult :=
  if locked = "w" then ([], .noopStack)
  else
    let cache_folder := joinPath filesystem_path ".Radicale.cache"
    let lock_path := joinPath cache_folder (cacheLockName ns)
    ([.makedirsSynced cache_folder, .rwLockAcquire lock_path "w"],
     .acquired lock_path "w")

/-! ### `StorageLockMixin.acquire_lock` -/

/-- `os.name` values the source distinguishes. -/
inductive OSName
  | posix
  | nt
  | otherOS
  deriving DecidableEq, Repr

/-- Where a standard stream of the hook subprocess is connected. -/
inductive Sink
  | devnull
  | pipe
  deriving DecidableEq, Repr

/-- The arguments of the `subprocess.Popen` call made for the hook. -/
structure PopenCall where
  command : String
  stdinSink : Sink
  stdoutSink : Sink
  stderrSink : Sink
  shell : Bool
  cwd : String
  passLockFd : Bool
  newProcessGroup : Bool
  deriving DecidableEq, Repr

/-- Observable steps of one `acquire_lock` transaction, in order. -/
inductive Event
  | lockAcquire (mode : String)
  | bodyRun
  | logDebugRunningHook
  | popen (c : PopenCall)
  | communicateDone
  | communicateInterrupted (e : Nat)
  | terminate
  | procWait
  | killpgKill
  | killpgNoProcess
  | logWarningKilledChildren
  | logDebugStdout (payload : String)
  | logDebugStderr (payload : String)
  | lockRelease
  deriving DecidableEq, Repr

/-- What the protected body of the transaction does: complete normally or
raise an exception (identified by a tag). -/
inductive BodyOutcome
  | ok
  | exc (e : Nat)
  deriving DecidableEq, Repr

/-- How `p.communicate()` behaves: return the drained streams after the
subprocess exits with `returncode`, or be interrupted by a `BaseException`
(identified by a tag, e.g. a `KeyboardInterrupt`). -/
inductive HookWait
  | completes (stdoutData stderrData : String) (returncode : Int)
  | interrupted (e : Nat)
  deriving DecidableEq, Repr

/-- Ambient facts about the environment of one transaction: the OS name,
whether `logger.isEnabledFor(logging.DEBUG)` holds, and whether
`os.killpg` finds remaining processes in the hook's group at cleanup time
(`ProcessLookupError` is raised when it does not). -/
structure HookEnv where
  osName : OSName
  debug : Bool
  killpgFinds : Bool
  deriving DecidableEq, Repr

/-- The configuration keys `acquire_lock` reads. -/
structure Config where
  hook : String
  filesystem_folder : String
  deriving DecidableEq, Repr

/-- How the `with storage.acquire_lock(...)` scope terminates: normally, by
re-raising the body's exception, by re-raising the `BaseException` that
interrupted the wait, or with `subprocess.CalledProcessError(p.returncode,
p.args)`. -/
inductive Outcome
  | ok
  | bodyExc (e : Nat)
  | interruptExc (e : Nat)
  | calledProcessError (returncode : Int) (args : String)
  deriving DecidableEq, Repr

/-- The `popen_kwargs` built by the source: stdin is always `DEVNULL`;
stdout/stderr are `PIPE` when debug logging is enabled, else `DEVNULL`;
`shell=True`; `cwd` is the storage folder; on posix the lock file descriptor
is passed through and a new process group is started via `os.setpgrp`; on nt
a new process group comes from `CREATE_NEW_PROCESS_GROUP`.  The command is
`hook % {"user": shlex.quote(user or "Anonymous")}`. -/
def hookPopenCall (cfg : Config) (env : HookEnv) (user : Option String) :
    PopenCall where
  command := pyFormatUser cfg.hook (shlexQuote (pyOr user "Anonymous"))
  stdinSink := .devnull
  stdoutSink := if env.debug then .pipe else .devnull
  stderrSink := if env.debug then .pipe else .devnull
  shell := true
  cwd := cfg.filesystem_folder
  passLockFd := env.osName = .posix
  newProcessGroup := env.osName = .posix || env.osName = .nt

/-- The `finally` block: on posix, `os.killpg(p.pid, signal.SIGKILL)` either
kills remaining group members (then a warning is logged) or raises
`ProcessLookupError` (swallowed).  On other platforms nothing happens. -/
def killpgEvents (env : HookEnv) : List Event :=
  if env.osName = .posix then
    if env.killpgFinds then [.killpgKill, .logWarningKilledChildren]
    else [.killpgNoProcess]
  else []

/-- The hook execution block guarded by `if mode == "w" and hook:`.  Returns
the events it performs and the outcome of the block.  When `communicate`
completes, `stdout_data`/`stderr_data` hold captured text only if the streams
were piped (debug enabled); each is logged at debug level when non-empty, and
a non-zero `returncode` raises `CalledProcessError`.  When `communicate` is
interrupted, the subprocess is terminated and waited on, the `finally`
cleanup runs, and the original exception is re-raised. -/
def runHook (cfg : Config) (env : HookEnv) (user : Option String)
    (hw : HookWait) : List Event × Outcome :=
  let pc := hookPopenCall cfg env user
  match hw with
  | .completes stdoutData stderrData returncode =>
    let logStdout : List Event :=
      if env.debug ∧ stdoutData ≠ "" then [.logDebugStdout stdoutData] else []
    let logStderr : List Event :=
      if env.debug ∧ stderrData ≠ "" then [.logDebugStderr stderrData] else []
    ([.logDebugRunningHook, .popen pc, .communicateDone] ++ killpgEvents env
       ++ logStdout ++ logStderr,
     if returncode ≠ 0 then .calledProcessError returncode pc.command
     else .ok)
  | .interrupted e =>
    ([.logDebugRunningHook, .popen pc, .communicateInterrupted e,
      .terminate, .procWait] ++ killpgEvents env,
     .interruptExc e)

/-- Embedding of the context manager `StorageLockMixin.acquire_lock(mode,
user)` together with a body: the (write or read) storage lock is acquired for
the whole scope, the body runs, and — only when the body completed normally,
`mode == "w"` and the configured hook string is non-empty — the hook block
runs while the lock is still held.  The `with self._lock.acquire(mode)`
statement releases the lock last on every path, including exceptional
ones. -/
def acquire_lock (cfg : Config) (env : HookEnv) (mode : String)
    (user : Option String) (body : BodyOutcome) (hw : HookWait) :
    List Event × Outcome :=
  match body with
  | .exc e => ([.lockAcquire mode, .bodyRun, .lockRelease], .bodyExc e)
  | .ok =>
    if mode = "w" ∧ cfg.hook ≠ "" then
      let r := runHook cfg env user hw
      (.lockAcquire mode :: .bodyRun :: r.1 ++ [.lockRelease], r.2)
    else
      ([.lockAcquire mode, .bodyRun, .lockRelease], .ok)

/-! ### Trace observables -/

/-- Is this event the spawn of the hook subprocess? -/
def isPopen : Event → Bool
  | .popen _ => true
  | _ => false

/-- Has the hook subprocess been waited on at this event — either
`communicate` returned, or `p.wait()` completed after `p.terminate()`? -/
def isWaited : Event → Bool
  | .communicateDone => true
  | .procWait => true
  | _ => false

/-- Is this event an acquisition or release of the storage-level lock? -/
def isLockEdge : Event → Bool
  | .lockAcquire _ => true
  | .lockRelease => true
  | _ => false

/-- Number of hook subprocess spawns in a trace. -/
def popenCount (tr : List Event) : Nat := (tr.filter isPopen).length

/-! ### Helper lemmas -/

theorem string_data_inj {a b : String} (h : a.data = b.data) : a = b := by
  cases a; cases b; exact congrArg String.mk h

theorem string_append_cancel_left {a b c : String} (h : a ++ b = a ++ c) :
    b = c := by
  have h2 : (a ++ b).data = (a ++ c).data := by rw [h]
  simp at h2
  exact string_data_inj h2

theorem dot_append_ne_empty (s : String) : "." ++ s ≠ "" := by
  intro h
  have h2 := congrArg String.data h
  simp at h2

/-- The cache lock file name determines the namespace. -/
theorem cacheLockName_inj {ns1 ns2 : String}
    (h : cacheLockName ns1 = cacheLockName ns2) : ns1 = ns2 := by
  unfold cacheLockName at h
  have h2 := string_append_cancel_left h
  by_cases e1 : ns1 = "" <;> by_cases e2 : ns2 = ""
  · rw [e1, e2]
  · rw [if_neg (by simp [e1]), if_pos e2] at h2
    exact absurd h2.symm (dot_append_ne_empty ns2)
  · rw [if_pos e1, if_neg (by simp [e2])] at h2
    exact absurd h2 (dot_append_ne_empty ns1)
  · rw [if_pos e1, if_pos e2] at h2
    exact string_append_cancel_left h2

/-- `joinPath` is injective in its second argument. -/
theorem joinPath_inj_right {a b c : String} (h : joinPath a b = joinPath a c) :
    b = c := by
  unfold joinPath at h
  exact string_append_cancel_left (a := a ++ "/") h

/-! ### Claim theorems -/

/-- C3: while the enclosing storage-level lock is held in write mode,
`_acquire_cache_lock` (with any namespace) returns a no-op scoped resource
(`contextlib.ExitStack()`) and performs no side effect: neither the cache
directory creation nor the creation/acquisition of a second lock file. -/
theorem cache_lock_noop_under_write_lock (filesystem_path ns : String) :
    acquire_cache_lock "w" filesystem_path ns = ([], .noopStack) := rfl

/-- C7: whenever the protected body raises, the lock is still released on
exit (the trace ends with the release event) and the hook is never run (no
subprocess spawn in the trace), for every mode and every hook
configuration; the body's exception propagates. -/
theorem body_exception_releases_lock_without_hook (cfg : Config)
    (env : HookEnv) (mode : String) (user : Option String) (e : Nat)
    (hw : HookWait) :
    acquire_lock cfg env mode user (.exc e) hw
      = ([.lockAcquire mode, .bodyRun, .lockRelease], .bodyExc e)
    ∧ popenCount (acquire_lock cfg env mode user (.exc e) hw).1 = 0
    ∧ (acquire_lock cfg env mode user (.exc e) hw).1.getLast?
      = some .lockRelease := by
  refine ⟨rfl, ?_, rfl⟩
  simp [acquire_lock, popenCount, isPopen, List.filter]

/-- C10: a `user` argument equal to the empty string behaves exactly like an
absent user: the whole transaction (trace and outcome) is identical, because
the substitution uses Python's falsiness (`user or "Anonymous"`), which
turns the empty string into the sentinel `"Anonymous"`. -/
theorem empty_user_equals_absent_user (cfg : Config) (env : HookEnv)
    (mode : String) (body : BodyOutcome) (hw : HookWait) :
    acquire_lock cfg env mode (some "") body hw
      = acquire_lock cfg env mode none body hw
    ∧ pyOr (some "") "Anonymous" = "Anonymous" := by
  constructor
  · cases body <;>
      simp [acquire_lock, runHook, hookPopenCall, pyOr]
  · rfl

/-- C2: when waiting for the hook subprocess is interrupted by an abnormal
condition `e` (e.g. a keyboard interrupt), the subprocess is terminated and
then waited on, the process-group cleanup runs, the lock is released last,
and the original condition `e` is re-raised unchanged — no other error kind
replaces or swallows it. -/
theorem interrupted_wait_terminates_then_reraises (cfg : Config)
    (env : HookEnv) (user : Option String) (e : Nat) (h : cfg.hook ≠ "") :
    acquire_lock cfg env "w" user .ok (.interrupted e)
      = (.lockAcquire "w" :: .bodyRun :: .logDebugRunningHook
           :: .popen (hookPopenCall cfg env user)
           :: .communicateInterrupted e :: .terminate :: .procWait
           :: (killpgEvents env ++ [.lockRelease]),
         .interruptExc e) := by
  simp [acquire_lock, runHook, h]

/-- Witness for C2 at a concrete input. -/
theorem interrupted_wait_terminates_then_reraises_witness :
    acquire_lock ⟨"h", "/srv"⟩ ⟨.posix, false, true⟩ "w" none .ok
        (.interrupted 5)
      = (.lockAcquire "w" :: .bodyRun :: .logDebugRunningHook
           :: .popen (hookPopenCall ⟨"h", "/srv"⟩ ⟨.posix, false, true⟩ none)
           :: .communicateInterrupted 5 :: .terminate :: .procWait
           :: (killpgEvents ⟨.posix, false, true⟩ ++ [.lockRelease]),
         .interruptExc 5) :=
  interrupted_wait_terminates_then_reraises ⟨"h", "/srv"⟩
    ⟨.posix, false, true⟩ none 5 (by decide)

/-- C4: for a write transaction with a configured hook whose subprocess
exits with status `rc`, the transaction succeeds when `rc = 0` and otherwise
fails with `subprocess.CalledProcessError` carrying the exit code `rc` and
the literal command line that was executed. -/
theorem hook_exit_code_policy (cfg : Config) (env : HookEnv)
    (user : Option String) (stdoutData stderrData : String) (rc : Int)
    (h : cfg.hook ≠ "") :
    (acquire_lock cfg env "w" user .ok
        (.completes stdoutData stderrData rc)).2
      = if rc = 0 then .ok
        else .calledProcessError rc
          (pyFormatUser cfg.hook (shlexQuote (pyOr user "Anonymous"))) := by
  simp only [acquire_lock, runHook, hookPopenCall]
  rw [if_pos ⟨trivial, h⟩]
  by_cases hrc : rc = 0 <;> simp [hrc]

/-- Witness for C4 at a concrete input: exit status 7 yields a
`CalledProcessError` carrying code 7 and the executed command line. -/
theorem hook_exit_code_policy_witness :
    (acquire_lock ⟨"h", "/srv"⟩ ⟨.posix, false, false⟩ "w" none .ok
        (.completes "" "" 7)).2
      = if (7 : Int) = 0 then .ok
        else .calledProcessError 7
          (pyFormatUser "h" (shlexQuote (pyOr none "Anonymous"))) :=
  hook_exit_code_policy ⟨"h", "/srv"⟩ ⟨.posix, false, false⟩ none "" "" 7
    (by decide)

/-- C1: in every write-mode transaction with a configured hook whose body
completes, the hook subprocess is spawned exactly once, strictly between the
body's completion and the release of the write lock, and it is fully waited
on (`communicate` returned, or `wait` completed after forced termination)
before the lock release; no lock edge occurs among the hook events. -/
theorem hook_runs_once_inside_write_lock (cfg : Config) (env : HookEnv)
    (user : Option String) (hw : HookWait) (h : cfg.hook ≠ "") :
    ∃ mid, (acquire_lock cfg env "w" user .ok hw).1
        = .lockAcquire "w" :: .bodyRun :: (mid ++ [.lockRelease])
      ∧ popenCount mid = 1
      ∧ mid.any isWaited = true
      ∧ mid.all (fun ev => !isLockEdge ev) = true := by
  obtain ⟨os, dbg, kpf⟩ := env
  refine ⟨(runHook cfg ⟨os, dbg, kpf⟩ user hw).1, ?_, ?_, ?_, ?_⟩
  · simp [acquire_lock, h]
  all_goals
    cases hw <;> cases os <;> cases dbg <;> cases kpf <;>
      simp [runHook, popenCount, killpgEvents, isPopen, isWaited,
        isLockEdge, List.filter]

/-- Witness for C1 at a concrete input. -/
theorem hook_runs_once_inside_write_lock_witness :
    ∃ mid, (acquire_lock ⟨"h", "/srv"⟩ ⟨.posix, false, false⟩ "w" none .ok
        (.completes "" "" 0)).1
        = .lockAcquire "w" :: .bodyRun :: (mid ++ [.lockRelease])
      ∧ popenCount mid = 1
      ∧ mid.any isWaited = true
      ∧ mid.all (fun ev => !isLockEdge ev) = true :=
  hook_runs_once_inside_write_lock ⟨"h", "/srv"⟩ ⟨.posix, false, false⟩
    none (.completes "" "" 0) (by decide)

/-- C8: a read-mode transaction never spawns the hook subprocess even when a
non-empty hook command is configured, and a write-mode transaction with an
empty hook configuration spawns no subprocess either. -/
theorem read_mode_or_empty_hook_spawns_nothing (cfg : Config)
    (env : HookEnv) (mode : String) (user : Option String)
    (body : BodyOutcome) (hw : HookWait)
    (h : mode = "r" ∨ cfg.hook = "") :
    popenCount (acquire_lock cfg env mode user body hw).1 = 0 := by
  have hcond : ¬(mode = "w" ∧ cfg.hook ≠ "") := by
    rcases h with h | h <;> simp [h]
  cases body <;>
    simp [acquire_lock, hcond, popenCount, isPopen, List.filter]

/-- Witness for C8 at a concrete input: read mode with a configured hook. -/
theorem read_mode_or_empty_hook_spawns_nothing_witness :
    popenCount (acquire_lock ⟨"h", "/srv"⟩ ⟨.posix, true, false⟩ "r" none
      .ok (.completes "" "" 0)).1 = 0 :=
  read_mode_or_empty_hook_spawns_nothing ⟨"h", "/srv"⟩ ⟨.posix, true, false⟩
    "r" none .ok (.completes "" "" 0) (.inl rfl)

/-- C6: the single spawned subprocess executes the command obtained by
substituting the shell-escaped user identity (or the sentinel `"Anonymous"`
when no user is supplied) into the configured template, through a shell,
with working directory equal to the storage root; on the spec's example the
template `"echo %(user)s > out.txt"` with user `"alice"` resolves to
`"echo alice > out.txt"`. -/
theorem hook_command_resolution (cfg : Config) (env : HookEnv)
    (user : Option String) (hw : HookWait) (h : cfg.hook ≠ "") :
    (acquire_lock cfg env "w" user .ok hw).1.filter isPopen
        = [.popen (hookPopenCall cfg env user)]
    ∧ (hookPopenCall cfg env user).command
        = pyFormatUser cfg.hook (shlexQuote (pyOr user "Anonymous"))
    ∧ (hookPopenCall cfg env user).shell = true
    ∧ (hookPopenCall cfg env user).cwd = cfg.filesystem_folder
    ∧ pyFormatUser "echo %(user)s > out.txt"
        (shlexQuote (pyOr (some "alice") "Anonymous"))
        = "echo alice > out.txt" := by
  refine ⟨?_, rfl, rfl, rfl, by decide⟩
  obtain ⟨os, dbg, kpf⟩ := env
  cases hw <;> cases os <;> cases dbg <;> cases kpf <;>
    simp [acquire_lock, runHook, h, killpgEvents, isPopen, List.filter]

/-- Witness for C6 at a concrete input. -/
theorem hook_command_resolution_witness :
    (acquire_lock ⟨"echo %(user)s > out.txt", "/srv"⟩ ⟨.posix, false, false⟩
        "w" (some "alice") .ok (.completes "" "" 0)).1.filter isPopen
        = [.popen (hookPopenCall ⟨"echo %(user)s > out.txt", "/srv"⟩
            ⟨.posix, false, false⟩ (some "alice"))]
    ∧ (hookPopenCall ⟨"echo %(user)s > out.txt", "/srv"⟩
        ⟨.posix, false, false⟩ (some "alice")).command
        = pyFormatUser "echo %(user)s > out.txt"
            (shlexQuote (pyOr (some "alice") "Anonymous"))
    ∧ (hookPopenCall ⟨"echo %(user)s > out.txt", "/srv"⟩
        ⟨.posix, false, false⟩ (some "alice")).shell = true
    ∧ (hookPopenCall ⟨"echo %(user)s > out.txt", "/srv"⟩
        ⟨.posix, false, false⟩ (some "alice")).cwd = "/srv"
    ∧ pyFormatUser "echo %(user)s > out.txt"
        (shlexQuote (pyOr (some "alice") "Anonymous"))
        = "echo alice > out.txt" :=
  hook_command_resolution ⟨"echo %(user)s > out.txt", "/srv"⟩
    ⟨.posix, false, false⟩ (some "alice") (.completes "" "" 0) (by decide)

/-- C5: when the enclosing lock is not held in write mode,
`_acquire_cache_lock` creates the cache directory via the storage layer's
synced directory-creation primitive and acquires a write-mode lock on a lock
file inside it whose base name is `".Radicale.lock"` for the empty namespace
and `".Radicale.lock" ++ "." ++ ns` for a non-empty namespace `ns`; calls
with different namespaces address different lock files. -/
theorem cache_lock_read_mode_distinct_files
    (locked filesystem_path ns ns2 : String) (h : locked ≠ "w")
    (hne : ns ≠ ns2) :
    acquire_cache_lock locked filesystem_path ns
      = ([.makedirsSynced (joinPath filesystem_path ".Radicale.cache"),
          .rwLockAcquire
            (joinPath (joinPath filesystem_path ".Radicale.cache")
              (cacheLockName ns)) "w"],
         .acquired
           (joinPath (joinPath filesystem_path ".Radicale.cache")
             (cacheLockName ns)) "w")
    ∧ (ns = "" → cacheLockName ns = ".Radicale.lock")
    ∧ (ns ≠ "" → cacheLockName ns = ".Radicale.lock" ++ ("." ++ ns))
    ∧ joinPath (joinPath filesystem_path ".Radicale.cache")
        (cacheLockName ns)
      ≠ joinPath (joinPath filesystem_path ".Radicale.cache")
          (cacheLockName ns2) := by
  refine ⟨?_, ?_, ?_, ?_⟩
  · simp [acquire_cache_lock, h]
  · intro he; simp [cacheLockName, he]
  · intro he; simp [cacheLockName, he]
  · intro heq
    exact hne (cacheLockName_inj (joinPath_inj_right heq))

/-- Witness for C5 at a concrete input. -/
theorem cache_lock_read_mode_distinct_files_witness :
    acquire_cache_lock "r" "/srv/coll" ""
      = ([.makedirsSynced (joinPath "/srv/coll" ".Radicale.cache"),
          .rwLockAcquire
            (joinPath (joinPath "/srv/coll" ".Radicale.cache")
              (cacheLockName "")) "w"],
         .acquired
           (joinPath (joinPath "/srv/coll" ".Radicale.cache")
             (cacheLockName "")) "w")
    ∧ (("" : String) = "" → cacheLockName "" = ".Radicale.lock")
    ∧ (("" : String) ≠ "" → cacheLockName "" = ".Radicale.lock" ++ ("." ++ ""))
    ∧ joinPath (joinPath "/srv/coll" ".Radicale.cache") (cacheLockName "")
      ≠ joinPath (joinPath "/srv/coll" ".Radicale.cache")
          (cacheLockName "item") :=
  cache_lock_read_mode_distinct_files "r" "/srv/coll" "" "item"
    (by decide) (by decide)

/-- C9: the hook subprocess's standard input is always discarded to a null
sink; with debug logging enabled both standard output and standard error are
captured through pipes and each is logged at debug level exactly when
non-empty; with debug logging disabled both are redirected to a null sink
and no captured-output log event occurs for any payload `s`. -/
theorem hook_stream_capture_policy (cfg : Config) (env : HookEnv)
    (user : Option String) (stdoutData stderrData s : String) (rc : Int)
    (h : cfg.hook ≠ "") :
    (hookPopenCall cfg env user).stdinSink = .devnull
    ∧ (env.debug = true →
        (hookPopenCall cfg env user).stdoutSink = .pipe
        ∧ (hookPopenCall cfg env user).stderrSink = .pipe
        ∧ (Event.logDebugStdout stdoutData
            ∈ (acquire_lock cfg env "w" user .ok
                (.completes stdoutData stderrData rc)).1 ↔ stdoutData ≠ "")
        ∧ (Event.logDebugStderr stderrData
            ∈ (acquire_lock cfg env "w" user .ok
                (.completes stdoutData stderrData rc)).1 ↔ stderrData ≠ ""))
    ∧ (env.debug = false →
        (hookPopenCall cfg env user).stdoutSink = .devnull
        ∧ (hookPopenCall cfg env user).stderrSink = .devnull
        ∧ Event.logDebugStdout s
          ∉ (acquire_lock cfg env "w" user .ok
              (.completes stdoutData stderrData rc)).1
        ∧ Event.logDebugStderr s
          ∉ (acquire_lock cfg env "w" user .ok
              (.completes stdoutData stderrData rc)).1) := by
  obtain ⟨os, dbg, kpf⟩ := env
  refine ⟨rfl, fun hd => ?_, fun hd => ?_⟩ <;> subst hd <;>
    cases os <;> cases kpf <;>
    simp [hookPopenCall, acquire_lock, runHook, h, killpgEvents]

/-- Witness for C9 at a concrete input. -/
theorem hook_stream_capture_policy_witness :
    (hookPopenCall ⟨"h", "/srv"⟩ ⟨.posix, true, false⟩ none).stdinSink
        = .devnull
    ∧ ((⟨.posix, true, false⟩ : HookEnv).debug = true →
        (hookPopenCall ⟨"h", "/srv"⟩ ⟨.posix, true, false⟩ none).stdoutSink
            = .pipe
        ∧ (hookPopenCall ⟨"h", "/srv"⟩ ⟨.posix, true, false⟩ none).stderrSink
            = .pipe
        ∧ (Event.logDebugStdout "out"
            ∈ (acquire_lock ⟨"h", "/srv"⟩ ⟨.posix, true, false⟩ "w" none .ok
                (.completes "out" "" 0)).1 ↔ ("out" : String) ≠ "")
        ∧ (Event.logDebugStderr ""
            ∈ (acquire_lock ⟨"h", "/srv"⟩ ⟨.posix, true, false⟩ "w" none .ok
                (.completes "out" "" 0)).1 ↔ ("" : String) ≠ ""))
    ∧ ((⟨.posix, true, false⟩ : HookEnv).debug = false →
        (hookPopenCall ⟨"h", "/srv"⟩ ⟨.posix, true, false⟩ none).stdoutSink
            = .devnull
        ∧ (hookPopenCall ⟨"h", "/srv"⟩ ⟨.posix, true, false⟩ none).stderrSink
            = .devnull
        ∧ Event.logDebugStdout "x"
          ∉ (acquire_lock ⟨"h", "/srv"⟩ ⟨.posix, true, false⟩ "w" none .ok
              (.completes "out" "" 0)).1
        ∧ Event.logDebugStderr "x"
          ∉ (acquire_lock ⟨"h", "/srv"⟩ ⟨.posix, true, false⟩ "w" none .ok
              (.completes "out" "" 0)).1) :=
  hook_stream_capture_policy ⟨"h", "/srv"⟩ ⟨.posix, true, false⟩ none
    "out" "" "x" 0 (by decide)

end Radicale
